import Mathlib

/-!
# Embassy election controller (`embassy/election.go`)

A shallow embedding of the leader-election coordinator.  Every method of
`Election` becomes a program over the record of its fields.  A program
returns the final record, the list of externally visible effects it
performed, in program order, and how it ended.  Answers of the coordination
service (Consul agent, lock and key-value calls) are inputs of the programs.
Goroutines started with `go` appear in the trace as effects; the body of a
started goroutine is a program of its own.
-/

namespace Embassy

/-- A Go `error` value, identified by its message; `nil` is `none` of `Option GoError`. -/
abbrev GoError := String

/-- Log levels used by the source. -/
inductive Level
  | debug
  | info
  | error
  deriving DecidableEq, Repr

/-- The three unbuffered stop channels made by `NewElection`. -/
inductive StopChan
  | stopLock
  | stopLockWatch
  | stopCheckMaster
  deriving DecidableEq, Repr

/-- Externally visible actions, in the order the source performs them. -/
inductive Effect
  /-- Source `l.log.<Level>(msg, zap.String("func", fn), ...)`. -/
  | log (lvl : Level) (fn : String) (msg : String)
  /-- Source `time.Sleep(d)`, the duration in nanoseconds. -/
  | sleep (d : Int)
  /-- Source `time.NewTicker(d).C`. -/
  | newTicker (d : Int)
  /-- Source `go l.asyncLock()`. -/
  | goAsyncLock
  /-- Source `go l.asyncLockWatch()`. -/
  | goAsyncLockWatch
  /-- Source `go l.asyncCheckMaster()`. -/
  | goAsyncCheckMaster
  /-- Source `go l.lAct.GotElected(err)` on the non-nil observer `obs` held in `l.lAct`. -/
  | goGotElected (obs : Nat) (err : Option GoError)
  /-- Source `go l.lAct.LostMaster(err)` on the non-nil observer `obs` held in `l.lAct`. -/
  | goLostMaster (obs : Nat) (err : Option GoError)
  /-- Source `go l.wmAct.MasterInfo(name, found, err)` on the non-nil observer `obs` held
  in `l.wmAct`. -/
  | goMasterInfo (obs : Nat) (name : String) (found : Bool) (err : Option GoError)
  /-- A completed send `c <- struct{}{}` or a send that is attempted and never accepted. -/
  | send (c : StopChan)
  /-- Source `l.agent.NodeName()`. -/
  | callNodeName
  /-- Source `l.client.LockOpts(&api.LockOptions{Key: key, Value: []byte(value)})`. -/
  | callLockOpts (key : String) (value : String)
  /-- Source `l.lock.Lock(l.stopLock)` on the lock object `lock`. -/
  | callLock (lock : Nat)
  /-- Source `l.lock.Unlock()` on the lock object `lock`. -/
  | callUnlock (lock : Nat)
  /-- Source `l.client.KV().Get(key, opts)` with `RequireConsistent: true`. -/
  | callKVGet (key : String)
  /-- A method call through the nil `l.lock` pointer, or a `go` statement whose method
  value is taken from a nil `l.lAct` or `l.wmAct`: a run-time panic. -/
  | nilDeref
  /-- Source `time.NewTicker(d)` with `d <= 0`: a run-time panic. -/
  | tickerPanic (d : Int)
  deriving DecidableEq, Repr

/-- The type `ElectionSettings`. -/
structure ElectionSettings where
  Key : String
  PoolInterval : String
  ElectionRetry : String
  deriving DecidableEq, Repr

/-- The type `masterInfo`. -/
structure masterInfo where
  name : String
  found : Bool
  deriving DecidableEq, Repr

/-- The type `Election`.  Pointers and channels are object identities, `nil` is `none`;
the logger is represented by the `log` effects; the three stop channels are the
constructors of `StopChan`. -/
structure Election where
  settings : ElectionSettings
  client : Nat
  agent : Nat
  lock : Option Nat
  elected : Bool
  retry : Int
  lAct : Option Nat
  wmAct : Option Nat
  mi : masterInfo
  watching : Bool
  locking : Bool
  poolInt : Int
  lockChan : Option Nat
  deriving DecidableEq, Repr

/-- How a program ended. -/
inductive Outcome (α : Type)
  /-- The function returned `v`. -/
  | returned (v : α)
  /-- The goroutine is parked for ever on a send that no goroutine receives. -/
  | blocked (c : StopChan)
  /-- The goroutine is parked in its `select` with no further signal to take. -/
  | parked
  /-- Run-time panic (nil dereference, non-positive ticker interval). -/
  | panicked
  deriving DecidableEq, Repr

/-- Result of running a program: final fields, effects in order, ending. -/
structure Run (α : Type) where
  l : Election
  trace : List Effect
  ret : Outcome α
  deriving DecidableEq, Repr

/-- A method body: a function from the receiver's fields to a `Run`. -/
def Prog (α : Type) : Type := Election → Run α

/-- Sequencing of statements: the second part runs only when the first returned. -/
def Prog.bind {α β : Type} (m : Prog α) (k : α → Prog β) : Prog β := fun l =>
  match m l with
  | ⟨l1, t1, .returned v⟩ => ⟨(k v l1).l, t1 ++ (k v l1).trace, (k v l1).ret⟩
  | ⟨l1, t1, .blocked c⟩ => ⟨l1, t1, .blocked c⟩
  | ⟨l1, t1, .parked⟩ => ⟨l1, t1, .parked⟩
  | ⟨l1, t1, .panicked⟩ => ⟨l1, t1, .panicked⟩

instance : Monad Prog where
  pure v := fun l => ⟨l, [], .returned v⟩
  bind := Prog.bind

/-- Perform one effect. -/
def emit (e : Effect) : Prog Unit := fun l => ⟨l, [e], .returned ()⟩

/-- Read the receiver. -/
def self : Prog Election := fun l => ⟨l, [], .returned l⟩

/-- Assign fields of the receiver. -/
def assign (f : Election → Election) : Prog Unit := fun l => ⟨f l, [], .returned ()⟩

/-- An unbuffered send `c <- struct{}{}`: completes when a goroutine is receiving on `c`
(`recv c`), and otherwise parks the sender for ever. -/
def sendOn (recv : StopChan → Bool) (c : StopChan) : Prog Unit := fun l =>
  if recv c then ⟨l, [.send c], .returned ()⟩ else ⟨l, [.send c], .blocked c⟩

/-- Nil pointer dereference. -/
def nilPanic {α : Type} : Prog α := fun l => ⟨l, [.nilDeref], .panicked⟩

/-- A `go` statement `go obs.M(...)` on the interface value `obs`: the method value is
taken in the calling goroutine, which panics when `obs` is nil; otherwise the call is
dispatched as the effect `e obs`. -/
def dispatch (obs : Option Nat) (e : Nat → Effect) : Prog Unit :=
  match obs with
  | some o => emit (e o)
  | none => nilPanic

/-- Waiting in a `select` with nothing left to receive. -/
def park {α : Type} : Prog α := fun l => ⟨l, [], .parked⟩

/-- Source `NewElection` (lines 32-64).  `haveClient` is `consulClient != nil`; `client` and
`agent` are the identities of `consulClient` and `consulClient.Agent()`; `dur` and
`retry` are the answers of the two `time.ParseDuration` calls. -/
def NewElection (haveClient : Bool) (client agent : Nat) (settings : ElectionSettings)
    (dur retry : Int × Option GoError) : Option Election × Option GoError :=
  if !haveClient then (none, some "No agent connection found")
  else
    match dur.2 with
    | some err => (none, some err)
    | none =>
      match retry.2 with
      | some err => (none, some err)
      | none =>
        (some
          { settings := settings, client := client, agent := agent, lock := none,
            elected := false, retry := retry.1, lAct := none, wmAct := none,
            mi := ⟨"", false⟩, watching := false, locking := false, poolInt := dur.1,
            lockChan := none },
         none)

/-- Source `NewCandidate` (lines 86-92). -/
def NewCandidate (actions : Nat) : Prog Unit := do
  assign (fun l => { l with lAct := some actions })
  emit .goAsyncLock

/-- Source `StepDown` (lines 94-113).  `recv c` tells whether a goroutine is receiving on `c`
when the send is made; `unlockRes` is the answer of `l.lock.Unlock()`. -/
def StepDown (recv : StopChan → Bool) (unlockRes : Option GoError) : Prog (Option GoError) := do
  let l ← self
  let err ← (if l.elected then do
      sendOn recv .stopLockWatch
      match l.lock with
      | some k => do
        emit (.callUnlock k)
        pure unlockRes
      | none => nilPanic
    else pure none : Prog (Option GoError))
  let l ← self
  (if l.watching then sendOn recv .stopCheckMaster else pure () : Prog Unit)
  let l ← self
  (if l.locking then sendOn recv .stopLock else pure () : Prog Unit)
  pure err

/-- Source `WatchMaster` (lines 115-121). -/
def WatchMaster (action : Nat) : Prog Unit := do
  assign (fun l => { l with wmAct := some action })
  emit .goAsyncCheckMaster

/-- Source `StopWathing` (lines 123-133). -/
def StopWathing (recv : StopChan → Bool) : Prog Unit := do
  let l ← self
  if l.watching then do
    assign (fun l => { l with watching := false })
    sendOn recv .stopCheckMaster
  else pure ()

/-- Answers of the coordination service during one acquisition attempt: the Go result
pairs of `l.agent.NodeName()`, `l.client.LockOpts(...)` and `l.lock.Lock(l.stopLock)`. -/
structure Attempt where
  nodeName : String × Option GoError
  lockOpts : Option Nat × Option GoError
  lockRes : Option Nat × Option GoError
  deriving DecidableEq, Repr

/-- Source `getLock`, lines 207-247, up to and including the call `l.lock.Lock(l.stopLock)`.
The result is `some err` when the function has already returned `(nil, err)` and
`none` when the goroutine is inside the `Lock` call. -/
def getLockEnter (nodeName : String × Option GoError) (lockOpts : Option Nat × Option GoError) :
    Prog (Option GoError) := do
  emit .callNodeName
  match nodeName.2 with
  | some err => pure (some err)
  | none => do
    emit (.log .info "getLock" "got node name")
    let l ← self
    emit (.callLockOpts l.settings.Key nodeName.1)
    match lockOpts.2 with
    | some err => pure (some err)
    | none => do
      assign (fun l => { l with lock := lockOpts.1 })
      emit (.log .debug "getLock" "lock struct created")
      emit (.log .info "getLock" "trying to aquire lock...")
      assign (fun l => { l with locking := true })
      let l ← self
      match l.lock with
      | some k => do
        emit (.callLock k)
        pure none
      | none => nilPanic

/-- Source `getLock`, lines 249-273, from the return of `l.lock.Lock(l.stopLock)` with the
pair `lockRes`. -/
def getLockLeave (lockRes : Option Nat × Option GoError) : Prog (Option Nat × Option GoError) := do
  assign (fun l => { l with locking := false })
  match lockRes.2 with
  | some err => pure (none, some err)
  | none =>
    match lockRes.1 with
    | none => do
      emit (.log .debug "getLock" "no lock")
      pure (none, none)
    | some ll => do
      emit (.log .info "getLock" "got lock")
      pure (some ll, none)

/-- Source `getLock` (lines 205-274). -/
def getLock (a : Attempt) : Prog (Option Nat × Option GoError) := do
  let early ← getLockEnter a.nodeName a.lockOpts
  match early with
  | some err => pure (none, some err)
  | none => getLockLeave a.lockRes

/-- Source `asyncLock`, lines 139-168: what follows `lc, err := l.getLock()`. -/
def asyncLockTail (r : Option Nat × Option GoError) : Prog Unit :=
  match r.2 with
  | some err => do
    emit (.log .error "asyncLock" err)
    let l ← self
    emit (.sleep l.retry)
    emit .goAsyncLock
    let l ← self
    dispatch l.lAct (fun o => .goGotElected o (some err))
  | none =>
    match r.1 with
    | none => pure ()
    | some lc => do
      assign (fun l => { l with lockChan := some lc })
      assign (fun l => { l with elected := true })
      let l ← self
      dispatch l.lAct (fun o => .goGotElected o none)
      emit .goAsyncLockWatch

/-- Source `asyncLock` (lines 135-168). -/
def asyncLock (a : Attempt) : Prog Unit := do
  let r ← getLock a
  asyncLockTail r

/-- Which case of the `select` in `asyncLockWatch` is taken. -/
inductive WatchSignal
  /-- Source `case <-l.lockChan`. -/
  | revoked
  /-- Source `case <-l.stopLockWatch`. -/
  | stop
  deriving DecidableEq, Repr

/-- Source `asyncLockWatch` (lines 170-203).  Both cases of the `select` end with `return`, so
the `for` runs its body once; `unlockRes` is the answer of `l.lock.Unlock()`. -/
def asyncLockWatch (sig : WatchSignal) (unlockRes : Option GoError) : Prog Unit :=
  match sig with
  | .revoked => do
    emit .goAsyncLock
    assign (fun l => { l with elected := false })
    let l ← self
    dispatch l.lAct (fun o => .goLostMaster o none)
    match l.lock with
    | none => nilPanic
    | some k => do
      emit (.callUnlock k)
      match unlockRes with
      | some err => emit (.log .error "asyncLockWatch" err)
      | none => pure ()
  | .stop => emit (.log .info "asyncLockWatch" "leave received")

/-- The fields of `api.KVPair` that the source reads.  `Value` is the stored value as
the string `string(pair.Value)`. -/
structure KVPair where
  Value : String
  Session : String
  deriving DecidableEq, Repr

/-- Source `getMasterInfo` (lines 312-333).  `kv` is the pair `(pair, err)` answered by
`kv.Get(l.settings.Key, opts)`. -/
def getMasterInfo (kv : Option KVPair × Option GoError) : Prog (String × Bool × Option GoError) := do
  let l ← self
  emit (.callKVGet l.settings.Key)
  match kv.2 with
  | some err => pure ("", false, some err)
  | none =>
    match kv.1 with
    | none => pure ("", false, some ("Invalid kv path: " ++ l.settings.Key))
    | some pair =>
      if pair.Session = "" then pure ("", false, none)
      else pure (pair.Value, true, none)

/-- Which case of the `select` in `asyncCheckMaster` is taken. -/
inductive PollSignal
  /-- Source `case <-ticker`, with the answer of the key-value read made in this tick. -/
  | tick (kv : Option KVPair × Option GoError)
  /-- Source `case <-l.stopCheckMaster`. -/
  | stop
  deriving DecidableEq, Repr

/-- The `for`/`select` loop of `asyncCheckMaster` (lines 284-309), driven by the
signals it receives; with no signal left the goroutine waits in the `select`. -/
def asyncCheckMasterLoop : List PollSignal → Prog Unit
  | [] => park
  | .stop :: _ => emit (.log .info "asyncCheckMaster" "leave received")
  | .tick kv :: rest => do
    let r ← getMasterInfo kv
    match r.2.2 with
    | some err => do
      let l ← self
      dispatch l.wmAct (fun o => .goMasterInfo o r.1 r.2.1 (some err))
      asyncCheckMasterLoop rest
    | none => do
      assign (fun l => { l with mi := ⟨r.1, r.2.1⟩ })
      let l ← self
      dispatch l.wmAct (fun o => .goMasterInfo o r.1 r.2.1 none)
      asyncCheckMasterLoop rest

/-- Source `asyncCheckMaster` (lines 276-310).  `time.NewTicker` panics on an interval
that is not positive. -/
def asyncCheckMaster (sigs : List PollSignal) : Prog Unit := do
  assign (fun l => { l with watching := true })
  emit (.sleep 2000000000)
  let l ← self
  if l.poolInt ≤ 0 then
    fun l0 => ⟨l0, [.tickerPanic l.poolInt], .panicked⟩
  else do
    emit (.newTicker l.poolInt)
    asyncCheckMasterLoop sigs

/-- Successive acquisition goroutines.  The head of the list answers the running
`asyncLock`; when that goroutine returned and had executed `go l.asyncLock()`, the
goroutine so started runs next, on the fields the previous one left, with the rest of
the list.  A goroutine that panics ends the program. -/
def asyncLockChain : List Attempt → Election → Election × List Effect
  | [], l => (l, [])
  | a :: rest, l =>
    if (asyncLock a l).ret = .returned () ∧ Effect.goAsyncLock ∈ (asyncLock a l).trace then
      ((asyncLockChain rest (asyncLock a l).l).1,
        (asyncLock a l).trace ++ (asyncLockChain rest (asyncLock a l).l).2)
    else ((asyncLock a l).l, (asyncLock a l).trace)

/-- An election as `NewElection` makes it, for the examples. -/
def fresh : Election :=
  { settings := ⟨"service/leader", "5s", "10s"⟩, client := 1, agent := 2, lock := none,
    elected := false, retry := 10000000000, lAct := none, wmAct := none,
    mi := ⟨"", false⟩, watching := false, locking := false, poolInt := 5000000000,
    lockChan := none }

/-- Effects that notify an observer, start a goroutine or wait: everything except
logging and calls into the coordination service. -/
def Effect.isAct : Effect → Bool
  | .sleep _ => true
  | .goAsyncLock => true
  | .goAsyncLockWatch => true
  | .goAsyncCheckMaster => true
  | .goGotElected _ _ => true
  | .goLostMaster _ _ => true
  | .goMasterInfo _ _ _ _ => true
  | .send _ => true
  | _ => false

/-- The `GotElected` dispatches. -/
def Effect.isGotElected : Effect → Bool
  | .goGotElected _ _ => true
  | _ => false

/-- The error `getLock` returns in an attempt, `none` when it returns no error. -/
def getLockErr (a : Attempt) (l : Election) : Option GoError :=
  match (getLock a l).ret with
  | .returned r => r.2
  | _ => none

/-- Whether a program ended in a run-time panic. -/
def Outcome.isPanicked {α : Type} : Outcome α → Bool
  | .panicked => true
  | _ => false

/-- The election together with the goroutines it started. -/
structure Sys where
  l : Election
  /-- Goroutines `asyncLock` started by a `go` statement that have not run yet. -/
  pending : Nat
  /-- Goroutines `asyncLock` inside `l.lock.Lock(l.stopLock)`. -/
  lockers : Nat
  /-- Goroutines `asyncLockWatch` waiting in their `select`. -/
  watchers : Nat
  /-- Callers of `StepDown` parked on a send, with the channel. -/
  stuck : List StopChan
  /-- All effects so far. -/
  out : List Effect
  /-- A goroutine panicked: the program has ended. -/
  crashed : Bool
  deriving DecidableEq, Repr

/-- Who receives on a stop channel: a lock-watch loop on `stopLockWatch`, a `Lock`
call on `stopLock`.  `WatchMaster` is not among the events of `Sys`, so no polling
loop receives on `stopCheckMaster`. -/
def Sys.recv (s : Sys) : StopChan → Bool
  | .stopLockWatch => decide (0 < s.watchers)
  | .stopLock => decide (0 < s.lockers)
  | .stopCheckMaster => false

/-- Record what a goroutine did: its writes, its effects, the goroutines it started, and
whether it panicked. -/
def Sys.absorb {α : Type} (s : Sys) (r : Run α) : Sys :=
  { s with
    l := r.l
    out := s.out ++ r.trace
    pending := s.pending + r.trace.count .goAsyncLock
    watchers := s.watchers + r.trace.count .goAsyncLockWatch
    crashed := s.crashed || r.ret.isPanicked }

/-- Steps of the system: each runs one goroutine from one waiting point to the next. -/
inductive Event
  /-- A call of `NewCandidate`. -/
  | newCandidate (actions : Nat)
  /-- A started `asyncLock` runs until it is inside `Lock`, or, when `NodeName` or
  `LockOpts` fails, until it returns. -/
  | attempt (nodeName : String × Option GoError) (lockOpts : Option Nat × Option GoError)
  /-- A `Lock` call returns `lockRes` and its `asyncLock` runs until it returns. -/
  | lockReturns (lockRes : Option Nat × Option GoError)
  /-- The revocation signal fires in a lock-watch loop, which runs until it returns. -/
  | revoked (unlockRes : Option GoError)
  /-- A call of `StepDown`, with the goroutines that receive its sends. -/
  | stepDown (unlockRes : Option GoError)
  deriving DecidableEq, Repr

/-- One event in a running program.  In `stepDown` a send on `stopLockWatch` is taken by
a lock-watch loop, which runs its stop case, and a send on `stopLock` is taken by a
`Lock` call, which then returns no handle and no error to its `asyncLock`; a send that
nobody takes leaves the caller in `stuck`. -/
def Sys.stepLive (s : Sys) : Event → Option Sys
  | .newCandidate actions => some (s.absorb (NewCandidate actions s.l))
  | .attempt nodeName lockOpts =>
    if s.pending = 0 then none
    else
      let s1 := { s with pending := s.pending - 1 }
      let r := getLockEnter nodeName lockOpts s.l
      match r.ret with
      | .returned (some err) => some ((s1.absorb r).absorb (asyncLockTail (none, some err) r.l))
      | .returned none => some { s1.absorb r with lockers := s1.lockers + 1 }
      | _ => some (s1.absorb r)
  | .lockReturns lockRes =>
    if s.lockers = 0 then none
    else some (Sys.absorb { s with lockers := s.lockers - 1 }
      ((getLockLeave lockRes >>= asyncLockTail) s.l))
  | .revoked unlockRes =>
    if s.watchers = 0 then none
    else some (Sys.absorb { s with watchers := s.watchers - 1 }
      (asyncLockWatch .revoked unlockRes s.l))
  | .stepDown unlockRes =>
    let r := StepDown s.recv unlockRes s.l
    let s1 := s.absorb r
    let s2 :=
      if Effect.send .stopLockWatch ∈ r.trace ∧ s.recv .stopLockWatch = true then
        Sys.absorb { s1 with watchers := s1.watchers - 1 } (asyncLockWatch .stop none s1.l)
      else s1
    let s3 :=
      if Effect.send .stopLock ∈ r.trace ∧ s.recv .stopLock = true then
        Sys.absorb { s2 with lockers := s2.lockers - 1 }
          ((getLockLeave (none, none) >>= asyncLockTail) s2.l)
      else s2
    match r.ret with
    | .blocked c => some { s3 with stuck := c :: s3.stuck }
    | _ => some s3

/-- One step; `none` when the event cannot happen in `s`: nothing happens after a
panic. -/
def Sys.step (s : Sys) (e : Event) : Option Sys :=
  if s.crashed then none else s.stepLive e

/-- Run a sequence of events; `none` when one of them cannot happen. -/
def Sys.run (s : Sys) : List Event → Option Sys
  | [] => some s
  | e :: es =>
    match s.step e with
    | some s1 => s1.run es
    | none => none

/-- The system right after `NewElection`. -/
def Sys.init (l : Election) : Sys :=
  { l := l, pending := 0, lockers := 0, watchers := 0, stuck := [], out := [],
    crashed := false }

/-- An attempt in which the agent names the node, the lock object is made and the lock
is acquired with revocation channel `9`. -/
def okAttempt : Attempt := ⟨("node-1", none), (some 7, none), (some 9, none)⟩

/-- An attempt in which `Lock` fails. -/
def failAttempt : Attempt := ⟨("node-1", none), (some 7, none), (none, some "rpc error")⟩

/-- An attempt in which `NodeName` fails. -/
def nodeNameFailAttempt : Attempt := ⟨("", some "no agent"), (none, none), (none, none)⟩

/-- An attempt cancelled while inside `Lock`: the call returns no handle and no error. -/
def cancelledAttempt : Attempt := ⟨("node-1", none), (some 7, none), (none, none)⟩

/-- The election after `NewCandidate(1)`: the observer `1` is registered. -/
def candidateState : Election := (NewCandidate 1 fresh).l

/-- The election after `NewCandidate(1)` and a successful first acquisition. -/
def electedState : Election := (asyncLock okAttempt (NewCandidate 1 fresh).l).l

/-- The election after `WatchMaster(5)`, once its polling loop waits in the `select`. -/
def watchState : Election := (asyncCheckMaster [] (WatchMaster 5 fresh).l).l

/-- The election after `WatchMaster(5)` and one poll that found `node-a` holding the key
with session `sess-1`: `mi` is `("node-a", true)`. -/
def leaderKnownState : Election :=
  (asyncCheckMaster [.tick (some ⟨"node-a", "sess-1"⟩, none)] (WatchMaster 5 fresh).l).l

/-! ## General facts about the embedding -/

theorem NewElection_fresh :
    NewElection true 1 2 ⟨"service/leader", "5s", "10s"⟩ (5000000000, none) (10000000000, none) =
      (some fresh, none) := by
  rfl

theorem NewElection_idle (haveClient : Bool) (client agent : Nat) (settings : ElectionSettings)
    (dur retry : Int × Option GoError) (e : Election) (err : Option GoError)
    (h : NewElection haveClient client agent settings dur retry = (some e, err)) :
    e.elected = false ∧ e.locking = false ∧ e.watching = false ∧ e.lock = none := by
  obtain ⟨d, de⟩ := dur
  obtain ⟨r, re⟩ := retry
  cases haveClient <;> cases de <;> cases re <;> simp [NewElection] at h
  obtain ⟨h1, _⟩ := h
  subst h1
  simp

theorem StepDown_fields (recv : StopChan → Bool) (u : Option GoError) (l : Election) :
    (StepDown recv u l).l = l := by
  obtain ⟨s, c, a, lock, elected, r, la, wa, mi, watching, locking, p, lc⟩ := l
  cases h1 : recv .stopLockWatch <;> cases h2 : recv .stopCheckMaster <;>
    cases h3 : recv .stopLock <;> cases elected <;> cases watching <;> cases locking <;>
    cases lock <;>
    simp [StepDown, bind, Prog.bind, self, pure, sendOn, emit, nilPanic, h1, h2, h3]

theorem getLock_ret_indep (a : Attempt) (l l0 : Election) :
    (getLock a l).ret = (getLock a l0).ret := by
  obtain ⟨⟨nn, e1⟩, ⟨lo, e2⟩, ⟨lr, e3⟩⟩ := a
  cases e1 <;> cases e2 <;> cases lo <;> cases e3 <;> cases lr <;>
    simp [getLock, getLockEnter, getLockLeave, bind, Prog.bind, pure, emit, self, assign, nilPanic]

theorem getLock_quiet (a : Attempt) (l : Election) :
    (getLock a l).trace.filter Effect.isAct = [] ∧
      (getLock a l).trace.filter Effect.isGotElected = [] := by
  obtain ⟨⟨nn, e1⟩, ⟨lo, e2⟩, ⟨lr, e3⟩⟩ := a
  cases e1 <;> cases e2 <;> cases lo <;> cases e3 <;> cases lr <;>
    simp [getLock, getLockEnter, getLockLeave, bind, Prog.bind, pure, emit, self, assign, nilPanic,
      Effect.isAct, Effect.isGotElected]

theorem getLock_keeps (a : Attempt) (l : Election) :
    (getLock a l).l.retry = l.retry ∧ (getLock a l).l.lAct = l.lAct ∧
      (getLock a l).l.elected = l.elected ∧ (getLock a l).l.lockChan = l.lockChan := by
  obtain ⟨⟨nn, e1⟩, ⟨lo, e2⟩, ⟨lr, e3⟩⟩ := a
  cases e1 <;> cases e2 <;> cases lo <;> cases e3 <;> cases lr <;>
    simp [getLock, getLockEnter, getLockLeave, bind, Prog.bind, pure, emit, self, assign, nilPanic]

theorem getLock_success_lock (a : Attempt) (l : Election) (ch : Nat)
    (h : (getLock a l).ret = .returned (some ch, none)) :
    ∃ k, (getLock a l).l.lock = some k ∧ (getLock a l).l.locking = false := by
  obtain ⟨⟨nn, e1⟩, ⟨lo, e2⟩, ⟨lr, e3⟩⟩ := a
  cases e1 <;> cases e2 <;> cases lo <;> cases e3 <;> cases lr <;>
    simp_all [getLock, getLockEnter, getLockLeave, bind, Prog.bind, pure, emit, self, assign,
      nilPanic]

theorem asyncLock_of_getLock (a : Attempt) (l : Election) (r : Option Nat × Option GoError)
    (h : (getLock a l).ret = .returned r) :
    asyncLock a l =
      ⟨(asyncLockTail r (getLock a l).l).l,
       (getLock a l).trace ++ (asyncLockTail r (getLock a l).l).trace,
       (asyncLockTail r (getLock a l).l).ret⟩ := by
  unfold asyncLock
  simp only [bind, Prog.bind]
  generalize getLock a l = g at h ⊢
  obtain ⟨gl, gt, gr⟩ := g
  simp only at h
  subst h
  rfl

theorem nil_observer_panics :
    (asyncLock failAttempt fresh).ret = .panicked ∧
      (asyncLock failAttempt fresh).trace.filter Effect.isGotElected = [] ∧
      (asyncLock okAttempt fresh).ret = .panicked ∧
      (asyncLock okAttempt fresh).trace.filter Effect.isAct = [] ∧
      (asyncLockWatch .revoked none { electedState with lAct := none }).ret = .panicked ∧
      (asyncLockWatch .revoked none { electedState with lAct := none }).trace =
        [.goAsyncLock, .nilDeref] ∧
      (asyncCheckMasterLoop [.tick (none, some "connection refused"), .tick (none, none)]
          fresh).ret = .panicked ∧
      (asyncCheckMasterLoop [.tick (none, some "connection refused"), .tick (none, none)]
          fresh).trace = [.callKVGet "service/leader", .nilDeref] ∧
      (asyncCheckMaster [.tick (none, none)] { watchState with poolInt := 0 }).ret =
        .panicked := by
  decide

theorem asyncLock_failure_shape (a : Attempt) (l : Election) (c : Option Nat) (err : GoError)
    (o : Nat) (hobs : l.lAct = some o)
    (h : (getLock a l).ret = .returned (c, some err)) :
    asyncLock a l =
      ⟨(getLock a l).l,
       (getLock a l).trace ++
         [.log .error "asyncLock" err, .sleep l.retry, .goAsyncLock,
           .goGotElected o (some err)],
       .returned ()⟩ := by
  have hk := getLock_keeps a l
  rw [asyncLock_of_getLock a l _ h]
  simp [asyncLockTail, dispatch, bind, Prog.bind, self, pure, emit, hk.1, hk.2.1, hobs]

theorem getLockErr_of_ret (a : Attempt) (l : Election) (c : Option Nat) (e : Option GoError)
    (h : (getLock a l).ret = .returned (c, e)) : getLockErr a l = e := by
  simp [getLockErr, h]

theorem asyncLockChain_failures (attempts : List Attempt) (l : Election) (o : Nat)
    (hobs : l.lAct = some o)
    (hall : ∀ b ∈ attempts, ∃ c e, (getLock b l).ret = .returned (c, some e)) :
    (asyncLockChain attempts l).2.filter Effect.isGotElected =
      attempts.map (fun b => Effect.goGotElected o (getLockErr b l)) := by
  induction attempts generalizing l with
  | nil => simp [asyncLockChain]
  | cons a rest ih =>
    obtain ⟨c, e, h⟩ := hall a (List.mem_cons_self a rest)
    have hs := asyncLock_failure_shape a l c e o hobs h
    have hq := getLock_quiet a l
    have hk := getLock_keeps a l
    have hmem : (asyncLock a l).ret = .returned () ∧ Effect.goAsyncLock ∈ (asyncLock a l).trace := by
      rw [hs]; simp
    have hrest : ∀ b ∈ rest, ∃ c e, (getLock b (asyncLock a l).l).ret = .returned (c, some e) := by
      intro b hb
      obtain ⟨cb, eb, hb2⟩ := hall b (List.mem_cons_of_mem a hb)
      exact ⟨cb, eb, by rw [getLock_ret_indep b _ l]; exact hb2⟩
    have hlact : (asyncLock a l).l.lAct = some o := by rw [hs]; rw [← hobs]; exact hk.2.1
    have herr : ∀ b, getLockErr b (asyncLock a l).l = getLockErr b l := by
      intro b
      simp [getLockErr, getLock_ret_indep b (asyncLock a l).l l]
    simp only [asyncLockChain, hmem, and_self, if_true, List.filter_append, ih _ hlact hrest, herr,
      List.map_cons]
    rw [hs]
    simp [hq.2, Effect.isGotElected, getLockErr_of_ret a l c (some e) h]

/-! ## The claims -/

/-- C1 (fails on the code): `StepDown` called on the election that holds the lock, with
the lock-watch loop receiving the stop signal and `Unlock` answering nil, returns nil,
performs the send and the unlock, and leaves `elected` true: `StepDown` never clears the
flag, so the election still claims leadership after it returns. -/
theorem StepDown_elected_stays_elected :
    electedState.elected = true ∧ electedState.locking = false ∧
      StepDown (fun _ => true) none electedState =
        ⟨electedState, [.send .stopLockWatch, .callUnlock 7], .returned none⟩ ∧
      (StepDown (fun _ => true) none electedState).l.elected = true := by
  decide

/-- C2 (fails on the code): after `NewCandidate`, a successful acquisition and one
`StepDown`, no lock-watch loop and no `Lock` call is running and no caller is stuck, yet
`elected` is still true, so a second `StepDown` sends on `stopLockWatch` with no receiver
and stays blocked on that send. -/
theorem StepDown_twice_sends_unreceived :
    ∃ s : Sys,
      (Sys.init fresh).run
          [.newCandidate 1, .attempt ("node-1", none) (some 7, none),
            .lockReturns (some 9, none), .stepDown none] = some s ∧
        s.stuck = [] ∧ s.watchers = 0 ∧ s.lockers = 0 ∧ s.l.elected = true ∧
        StepDown s.recv none s.l = ⟨s.l, [.send .stopLockWatch], .blocked .stopLockWatch⟩ ∧
        (s.step (.stepDown none)).map (fun s1 => s1.stuck) = some [.stopLockWatch] := by
  refine ⟨_, rfl, ?_⟩
  decide

/-- C3: when the revocation signal fires in a lock-watch loop of an election that has
a registered election observer and a lock object, `asyncLockWatch` starts one
`asyncLock`, sets `elected` to false, dispatches one `LostMaster(nil)` to the observer,
calls `Unlock` once, only logs the error of `Unlock`, and returns; nothing else is
dispatched or started. -/
theorem asyncLockWatch_revoked (u : Option GoError) (l : Election) (o k : Nat)
    (hobs : l.lAct = some o) (hk : l.lock = some k) :
    asyncLockWatch .revoked u l =
        ⟨{ l with elected := false },
         [.goAsyncLock, .goLostMaster o none, .callUnlock k] ++
           (match u with
            | some err => [Effect.log .error "asyncLockWatch" err]
            | none => []),
         .returned ()⟩ ∧
      (asyncLockWatch .revoked u l).trace.filter Effect.isAct =
        [.goAsyncLock, .goLostMaster o none] ∧
      (asyncLockWatch .revoked u l).trace.count (.callUnlock k) = 1 ∧
      (asyncLockWatch .revoked u l).l.elected = false := by
  cases u <;>
    simp [asyncLockWatch, dispatch, bind, Prog.bind, self, pure, emit, assign, hk, hobs,
      Effect.isAct]

theorem asyncLockWatch_revoked_witness :
    electedState.lAct = some 1 ∧ electedState.lock = some 7 ∧
      asyncLockWatch .revoked (some "lock not held") electedState =
        ⟨{ electedState with elected := false },
         [.goAsyncLock, .goLostMaster 1 none, .callUnlock 7,
           .log .error "asyncLockWatch" "lock not held"],
         .returned ()⟩ :=
  ⟨by decide, by decide,
    (asyncLockWatch_revoked (some "lock not held") electedState 1 7 (by decide) (by decide)).1⟩

/-- C4: on an election with a registered election observer, when `getLock` returns the
error `err`, `asyncLock` returns after logging the error, sleeping `l.retry`, starting
one `asyncLock` and dispatching one `GotElected(err)` to the observer, in this order,
and does nothing else; and when every attempt of a sequence fails, the chain of
goroutines dispatches one `GotElected` per attempt, each with the non-nil error of its
own attempt. -/
theorem asyncLock_failed_attempts (a : Attempt) (rest : List Attempt) (l : Election)
    (c : Option Nat) (err : GoError) (o : Nat) (hobs : l.lAct = some o)
    (h : (getLock a l).ret = .returned (c, some err))
    (hrest : ∀ b ∈ rest, ∃ cb eb, (getLock b l).ret = .returned (cb, some eb)) :
    (asyncLock a l).ret = .returned () ∧
      (asyncLock a l).trace =
        (getLock a l).trace ++
          [.log .error "asyncLock" err, .sleep l.retry, .goAsyncLock,
            .goGotElected o (some err)] ∧
      (asyncLock a l).trace.filter Effect.isAct =
        [.sleep l.retry, .goAsyncLock, .goGotElected o (some err)] ∧
      (asyncLockChain (a :: rest) l).2.filter Effect.isGotElected =
        (a :: rest).map (fun b => Effect.goGotElected o (getLockErr b l)) ∧
      (∀ b ∈ a :: rest, getLockErr b l ≠ none) ∧
      ((asyncLockChain (a :: rest) l).2.filter Effect.isGotElected).length = rest.length + 1 := by
  have hs := asyncLock_failure_shape a l c err o hobs h
  have hq := getLock_quiet a l
  have hall : ∀ b ∈ a :: rest, ∃ cb eb, (getLock b l).ret = .returned (cb, some eb) := by
    intro b hb
    rcases List.mem_cons.1 hb with hb | hb
    · subst hb; exact ⟨c, err, h⟩
    · exact hrest b hb
  have hchain := asyncLockChain_failures (a :: rest) l o hobs hall
  refine ⟨by rw [hs], by rw [hs], ?_, hchain, ?_, ?_⟩
  · rw [hs]; simp [hq.1, Effect.isAct]
  · intro b hb
    obtain ⟨cb, eb, hb2⟩ := hall b hb
    rw [getLockErr_of_ret b l cb (some eb) hb2]
    simp
  · rw [hchain]; simp

theorem asyncLock_failed_attempts_witness :
    candidateState.lAct = some 1 ∧
      (getLock failAttempt candidateState).ret = .returned (none, some "rpc error") ∧
      (getLock nodeNameFailAttempt candidateState).ret = .returned (none, some "no agent") ∧
      (asyncLockChain [failAttempt, nodeNameFailAttempt] candidateState).2.filter
          Effect.isGotElected =
        [.goGotElected 1 (some "rpc error"), .goGotElected 1 (some "no agent")] :=
  ⟨by decide, by decide, by decide,
    (asyncLock_failed_attempts failAttempt [nodeNameFailAttempt] candidateState none "rpc error" 1
      (by decide) (by decide)
      (by intro b hb; rw [List.mem_singleton.1 hb]; exact ⟨none, "no agent", by decide⟩)).2.2.2.1⟩

/-- C5: on an election with a registered election observer, when `getLock` returns the
revocation channel `ch` and no error, `asyncLock` stores `ch` in `lockChan`, sets
`elected`, dispatches one `GotElected(nil)` to the observer and then starts one
lock-watch loop, and returns; it starts no acquisition attempt, and the `GotElected(nil)`
dispatch comes before the start of the loop and so before the `LostMaster` dispatch and
the new attempt that the loop makes on revocation. -/
theorem asyncLock_elected (a : Attempt) (l : Election) (ch o : Nat) (hobs : l.lAct = some o)
    (h : (getLock a l).ret = .returned (some ch, none)) :
    asyncLock a l =
        ⟨{ (getLock a l).l with lockChan := some ch, elected := true },
         (getLock a l).trace ++ [.goGotElected o none, .goAsyncLockWatch],
         .returned ()⟩ ∧
      (asyncLock a l).trace.filter Effect.isAct = [.goGotElected o none, .goAsyncLockWatch] ∧
      (asyncLock a l).l.elected = true ∧ (asyncLock a l).l.lockChan = some ch ∧
      ∀ u : Option GoError,
        ((asyncLock a l).trace ++
            (asyncLockWatch .revoked u (asyncLock a l).l).trace).filter Effect.isAct =
          [.goGotElected o none, .goAsyncLockWatch, .goAsyncLock, .goLostMaster o none] := by
  have hk := getLock_keeps a l
  have hq := getLock_quiet a l
  obtain ⟨k, hlock, _⟩ := getLock_success_lock a l ch h
  have e : asyncLock a l =
      ⟨{ (getLock a l).l with lockChan := some ch, elected := true },
       (getLock a l).trace ++ [.goGotElected o none, .goAsyncLockWatch],
       .returned ()⟩ := by
    rw [asyncLock_of_getLock a l _ h]
    simp [asyncLockTail, dispatch, bind, Prog.bind, self, pure, emit, assign, hk.2.1, hobs]
  refine ⟨e, ?_, ?_, ?_, ?_⟩
  · rw [e]; simp [hq.1, Effect.isAct]
  · rw [e]
  · rw [e]
  · intro u
    rw [e]
    cases u <;>
      simp [asyncLockWatch, dispatch, bind, Prog.bind, self, pure, emit, assign, hlock, hq.1,
        Effect.isAct, hk.2.1, hobs]

theorem asyncLock_elected_witness :
    candidateState.lAct = some 1 ∧
      (getLock okAttempt candidateState).ret = .returned (some 9, none) ∧
      (asyncLock okAttempt candidateState).trace.filter Effect.isAct =
        [.goGotElected 1 none, .goAsyncLockWatch] :=
  ⟨by decide, by decide, (asyncLock_elected okAttempt candidateState 9 1 (by decide) (by decide)).2.1⟩

/-- C6: when the attempt reaches the `Lock` call and `Lock` returns no handle and no
error, `getLock` returns `(nil, nil)` and `asyncLock` returns having done nothing after
`getLock`: no dispatch, no sleep, no goroutine started; `elected` is as before and
`locking` is false. -/
theorem asyncLock_cancelled (a : Attempt) (l : Election)
    (hcall : (getLockEnter a.nodeName a.lockOpts l).ret = .returned none)
    (hres : a.lockRes = (none, none)) :
    (getLock a l).ret = .returned (none, none) ∧
      (asyncLock a l).ret = .returned () ∧
      (asyncLock a l).trace = (getLock a l).trace ∧
      (asyncLock a l).trace.filter Effect.isAct = [] ∧
      (asyncLock a l).l.elected = l.elected ∧
      (asyncLock a l).l.locking = false := by
  obtain ⟨⟨nn, e1⟩, ⟨lo, e2⟩, ⟨lr, e3⟩⟩ := a
  simp only at hres
  obtain ⟨h1, h2⟩ := Prod.mk.inj hres
  subst h1 h2
  cases e1 <;> cases e2 <;> cases lo <;>
    simp_all [asyncLock, asyncLockTail, getLock, getLockEnter, getLockLeave, bind, Prog.bind, pure,
      emit, self, assign, nilPanic, Effect.isAct]

theorem asyncLock_cancelled_witness :
    (getLockEnter cancelledAttempt.nodeName cancelledAttempt.lockOpts electedState).ret =
        .returned none ∧
      cancelledAttempt.lockRes = (none, none) ∧
      (asyncLock cancelledAttempt electedState).trace.filter Effect.isAct = [] ∧
      (asyncLock cancelledAttempt electedState).l.elected = electedState.elected :=
  ⟨by decide, rfl,
    (asyncLock_cancelled cancelledAttempt electedState (by decide) rfl).2.2.2.1,
    (asyncLock_cancelled cancelledAttempt electedState (by decide) rfl).2.2.2.2.1⟩

/-- C7 (as stated, fails): with a registered leadership observer, for the stored value
`node-a` with an empty `Session`, `getMasterInfo` returns the empty identity, not the
stored value, and the polling loop notifies the observer with the empty identity. -/
theorem getMasterInfo_no_session_counterexample :
    leaderKnownState.wmAct = some 5 ∧
      (getMasterInfo (some ⟨"node-a", ""⟩, none) leaderKnownState).ret =
        .returned ("", false, none) ∧
      (getMasterInfo (some ⟨"node-a", ""⟩, none) leaderKnownState).ret ≠
        .returned ("node-a", false, none) ∧
      (asyncCheckMasterLoop [.tick (some ⟨"node-a", ""⟩, none)] leaderKnownState).trace =
        [.callKVGet "service/leader", .goMasterInfo 5 "" false none] := by
  decide

/-- C7 (amended): when the read succeeds and the key is present with any stored value
`v` and an empty `Session`, `getMasterInfo` returns `("", false, nil)`; and on an
election with a registered leadership observer the poll tick stores `("", false)` in
`mi`, notifies the observer once with `("", false, nil)` and goes on polling. -/
theorem getMasterInfo_no_session (v : String) (l : Election) (rest : List PollSignal) (o : Nat)
    (hobs : l.wmAct = some o) :
    getMasterInfo (some ⟨v, ""⟩, none) l =
        ⟨l, [.callKVGet l.settings.Key], .returned ("", false, none)⟩ ∧
      asyncCheckMasterLoop (.tick (some ⟨v, ""⟩, none) :: rest) l =
        ⟨(asyncCheckMasterLoop rest { l with mi := ⟨"", false⟩ }).l,
         [.callKVGet l.settings.Key, .goMasterInfo o "" false none] ++
           (asyncCheckMasterLoop rest { l with mi := ⟨"", false⟩ }).trace,
         (asyncCheckMasterLoop rest { l with mi := ⟨"", false⟩ }).ret⟩ ∧
      asyncCheckMasterLoop [.tick (some ⟨v, ""⟩, none)] l =
        ⟨{ l with mi := ⟨"", false⟩ },
         [.callKVGet l.settings.Key, .goMasterInfo o "" false none], .parked⟩ := by
  refine ⟨?_, ?_, ?_⟩
  · simp [getMasterInfo, bind, Prog.bind, self, pure, emit]
  · simp [asyncCheckMasterLoop, getMasterInfo, dispatch, bind, Prog.bind, self, pure, emit,
      assign, hobs]
  · simp [asyncCheckMasterLoop, getMasterInfo, dispatch, bind, Prog.bind, self, pure, emit,
      assign, park, hobs]

theorem getMasterInfo_no_session_witness :
    leaderKnownState.wmAct = some 5 ∧ leaderKnownState.mi = ⟨"node-a", true⟩ ∧
      asyncCheckMasterLoop [.tick (some ⟨"node-a", ""⟩, none)] leaderKnownState =
        ⟨{ leaderKnownState with mi := ⟨"", false⟩ },
         [.callKVGet leaderKnownState.settings.Key, .goMasterInfo 5 "" false none], .parked⟩ :=
  ⟨by decide, by decide,
    (getMasterInfo_no_session "node-a" leaderKnownState [] 5 (by decide)).2.2⟩

/-- C8: on an election with a registered leadership observer, in a poll tick whose read
returns an error or finds no key, `getMasterInfo` returns `("", false, err)` with a
non-nil `err`, the loop notifies the observer once with exactly that, and then carries
on with the remaining signals from the unchanged election (so `mi` is as before); with
no further signal it is waiting in its `select`, not returned. -/
theorem asyncCheckMaster_poll_error (kv : Option KVPair × Option GoError) (l : Election)
    (rest : List PollSignal) (o : Nat) (hobs : l.wmAct = some o)
    (h : kv.2 ≠ none ∨ kv.1 = none) :
    ∃ err : GoError,
      (getMasterInfo kv l).ret = .returned ("", false, some err) ∧
        asyncCheckMasterLoop (.tick kv :: rest) l =
          ⟨(asyncCheckMasterLoop rest l).l,
           [.callKVGet l.settings.Key, .goMasterInfo o "" false (some err)] ++
             (asyncCheckMasterLoop rest l).trace,
           (asyncCheckMasterLoop rest l).ret⟩ ∧
        asyncCheckMasterLoop [.tick kv] l =
          ⟨l, [.callKVGet l.settings.Key, .goMasterInfo o "" false (some err)], .parked⟩ ∧
        (asyncCheckMasterLoop [.tick kv] l).l.mi = l.mi := by
  obtain ⟨pair, e⟩ := kv
  cases e with
  | some err =>
    refine ⟨err, ?_, ?_, ?_, ?_⟩ <;>
      simp [asyncCheckMasterLoop, getMasterInfo, dispatch, bind, Prog.bind, self, pure, emit,
        assign, park, hobs]
  | none =>
    cases pair with
    | some p => simp at h
    | none =>
      refine ⟨"Invalid kv path: " ++ l.settings.Key, ?_, ?_, ?_, ?_⟩ <;>
        simp [asyncCheckMasterLoop, getMasterInfo, dispatch, bind, Prog.bind, self, pure, emit,
          assign, park, hobs]

theorem asyncCheckMaster_poll_error_witness :
    leaderKnownState.wmAct = some 5 ∧ leaderKnownState.mi = ⟨"node-a", true⟩ ∧
      ((none, some "connection refused") : Option KVPair × Option GoError).2 ≠ none ∧
      ∃ err : GoError,
        (getMasterInfo (none, some "connection refused") leaderKnownState).ret =
            .returned ("", false, some err) ∧
          asyncCheckMasterLoop [.tick (none, some "connection refused"), .tick (none, none)]
              leaderKnownState =
            ⟨(asyncCheckMasterLoop [.tick (none, none)] leaderKnownState).l,
             [.callKVGet leaderKnownState.settings.Key, .goMasterInfo 5 "" false (some err)] ++
               (asyncCheckMasterLoop [.tick (none, none)] leaderKnownState).trace,
             (asyncCheckMasterLoop [.tick (none, none)] leaderKnownState).ret⟩ ∧
          asyncCheckMasterLoop [.tick (none, some "connection refused")] leaderKnownState =
            ⟨leaderKnownState,
              [.callKVGet leaderKnownState.settings.Key, .goMasterInfo 5 "" false (some err)],
              .parked⟩ ∧
          (asyncCheckMasterLoop [.tick (none, some "connection refused")] leaderKnownState).l.mi =
            leaderKnownState.mi :=
  ⟨by decide, by decide, by decide,
    asyncCheckMaster_poll_error (none, some "connection refused") leaderKnownState
      [.tick (none, none)] 5 (by decide) (Or.inl (by decide))⟩

/-- C9: on an election whose `elected`, `locking` and `watching` are all false, as
`NewElection` makes it, `StepDown` performs no effect at all (no send, no `Unlock`, no
nil dereference), returns nil whatever goroutines are receiving, and leaves every field
unchanged. -/
theorem StepDown_idle (recv : StopChan → Bool) (u : Option GoError) (l : Election)
    (he : l.elected = false) (hl : l.locking = false) (hw : l.watching = false) :
    StepDown recv u l = ⟨l, [], .returned none⟩ := by
  simp [StepDown, bind, Prog.bind, self, pure, he, hw, hl]

theorem StepDown_idle_witness :
    NewElection true 1 2 ⟨"service/leader", "5s", "10s"⟩ (5000000000, none) (10000000000, none) =
        (some fresh, none) ∧
      fresh.elected = false ∧ fresh.locking = false ∧ fresh.watching = false ∧
      StepDown (fun _ => false) (some "lock not held") fresh = ⟨fresh, [], .returned none⟩ :=
  ⟨rfl, rfl, rfl, rfl, StepDown_idle (fun _ => false) (some "lock not held") fresh rfl rfl rfl⟩

/-- C10 (as stated, fails): with a registered election observer, in a failed attempt the
`GotElected(err)` dispatch does not come before the retry sleep nor before the start of
the next attempt: the sleep is first, the `go l.asyncLock()` second and the dispatch
last. -/
theorem asyncLock_GotElected_order_counterexample :
    candidateState.lAct = some 1 ∧
      (getLock failAttempt candidateState).ret = .returned (none, some "rpc error") ∧
      (asyncLock failAttempt candidateState).ret = .returned () ∧
      (asyncLock failAttempt candidateState).trace.filter Effect.isAct =
        [.sleep 10000000000, .goAsyncLock, .goGotElected 1 (some "rpc error")] ∧
      ¬ ((asyncLock failAttempt candidateState).trace.indexOf
            (.goGotElected 1 (some "rpc error")) <
          (asyncLock failAttempt candidateState).trace.indexOf (.sleep 10000000000)) ∧
      ¬ ((asyncLock failAttempt candidateState).trace.indexOf
            (.goGotElected 1 (some "rpc error")) <
          (asyncLock failAttempt candidateState).trace.indexOf .goAsyncLock) := by
  decide

/-- C10 (amended): on an election with a registered election observer, every failed
attempt ends, after the calls and logs of `getLock`, with exactly these four effects in
this order: the error log, the retry sleep, the start of the next attempt, the
`GotElected(err)` dispatch; then `asyncLock` returns.  Nothing before the error log
notifies, waits or starts a goroutine. -/
theorem asyncLock_GotElected_last (a : Attempt) (l : Election) (c : Option Nat) (err : GoError)
    (o : Nat) (hobs : l.lAct = some o)
    (h : (getLock a l).ret = .returned (c, some err)) :
    ∃ pre : List Effect,
      pre = (getLock a l).trace ∧
        (asyncLock a l).trace =
          pre ++ [.log .error "asyncLock" err, .sleep l.retry, .goAsyncLock,
            .goGotElected o (some err)] ∧
        pre.filter Effect.isAct = [] ∧
        (asyncLock a l).ret = .returned () := by
  have hs := asyncLock_failure_shape a l c err o hobs h
  have hq := getLock_quiet a l
  refine ⟨(getLock a l).trace, rfl, ?_, hq.1, ?_⟩
  · rw [hs]
  · rw [hs]

theorem asyncLock_GotElected_last_witness :
    candidateState.lAct = some 1 ∧
      (getLock failAttempt candidateState).ret = .returned (none, some "rpc error") ∧
      ∃ pre : List Effect,
        pre = (getLock failAttempt candidateState).trace ∧
          (asyncLock failAttempt candidateState).trace =
            pre ++ [.log .error "asyncLock" "rpc error", .sleep candidateState.retry,
              .goAsyncLock, .goGotElected 1 (some "rpc error")] ∧
          pre.filter Effect.isAct = [] ∧
          (asyncLock failAttempt candidateState).ret = .returned () :=
  ⟨by decide, by decide,
    asyncLock_GotElected_last failAttempt candidateState none "rpc error" 1 (by decide)
      (by decide)⟩

end Embassy
